import Mathlib

/-!
Shallow embedding of `src/octoprint/job/__init__.py` (the print-job core:
`Printjob`, `LocalFilePrintjob`, `SDFilePrintjob` and their listener
dispatch), together with the theorems settling the frozen claims.

The module is Python 2 source: it sets `__metaclass__ = ABCMeta` at class
level (meaningful only in Python 2) and opens with
`from __future__ import absolute_import, unicode_literals` WITHOUT
`division`. Consequently `/` between two integers is integer floor
division, while a float operand gives true division. Python integers are
unbounded and are modelled as `Int`/`Nat`; wall-clock times and float
results are modelled as `Rat`; a raised exception is modelled as the
`Except.error` side of `Except PyError`.

Collaborators that live in this repository but outside the embedded
sources (`octoprint.util.bom_aware_open`, `octoprint.util.to_unicode`,
`octoprint.util.RepeatedTimer`, the protocol object) are modelled from the
spec at the exact points noted in the doc comments below.
-/

deriving instance DecidableEq for Except

/-- Python exceptions the embedded code can raise. -/
inductive PyError where
| typeError
| indexError
| zeroDivisionError
| valueError (msg : String)
deriving DecidableEq

/-- A Python value, as far as the dispatcher's log-message construction
distinguishes them: a string, or any non-string object (the job object
itself is passed as an argument to the lifecycle handlers). -/
inductive PyVal where
| str (s : String)
| obj
deriving DecidableEq

/-- One piece of a brace-style format template: literal text or one
auto-numbered replacement field. -/
inductive FmtPart where
| lit (s : String)
| hole
deriving DecidableEq

/-- CPython `str.format` with auto-numbered fields: the fields consume the
positional arguments in order, and a field for which no argument is left
raises `IndexError`. Surplus arguments are ignored. -/
def pyFormat : List FmtPart → List String → Except PyError String
| [], _ => .ok ""
| .lit s :: rest, args => (pyFormat rest args).map (fun t => s ++ t)
| .hole :: _, [] => .error .indexError
| .hole :: rest, a :: args => (pyFormat rest args).map (fun t => a ++ t)

/-- CPython `", ".join(xs)`: every element must be a string, otherwise
`TypeError` is raised. -/
def joinComma : List PyVal → Except PyError String
| [] => .ok ""
| [.str s] => .ok s
| .str s :: x :: rest => (joinComma (x :: rest)).map (fun t => s ++ ", " ++ t)
| .obj :: _ => .error .typeError

/-- Lines 83-86: the log message built inside the `except` block of
`Printjob.notify_listeners`. The outer template
`"Exception while calling ... on printjob listener ..."` carries two
replacement fields but `.format` is given a single argument (the inner
`"name(args)"` string), and the `", ".join` receives `list(args)` raw - for
the lifecycle events that list holds the job object itself, not a string.
Every call site passes no keyword arguments, so the keyword part of the
joined list is empty. -/
def logMessage (name : String) (args : List PyVal) : Except PyError String := do
  let joined ← joinComma args
  let inner ← pyFormat [.hole, .lit "(", .hole, .lit ")"] [name, joined]
  pyFormat [.lit "Exception while calling ", .hole,
            .lit " on printjob listener ", .hole] [inner]

/-- A registered print-job listener, reduced to what dispatch observes: an
identifier, the event names for which `getattr` finds a handler, and the
subset of those whose handler raises when invoked. -/
structure Listener where
  id : Nat
  handles : List String
  raises : List String
deriving DecidableEq

/-- Lines 74-86, `Printjob.notify_listeners`: iterate over the listeners in
registration order; skip a listener without a handler for the event
(`getattr(listener, name, None)` falsy); invoke the handler, and when it
raises, run the `except` block, which evaluates the `logMessage`
expression. Evaluating that expression itself raises (see `logMessage`),
and an exception raised inside an `except` block propagates out of
`notify_listeners`, abandoning the remaining listeners. Returns the ids of
the listeners whose handler was invoked, in order, together with the
exception escaping the call, if any. -/
def notify_listeners (name : String) (args : List PyVal) :
    List Listener → List Nat × Option PyError
| [] => ([], none)
| l :: rest =>
  if l.handles.contains name then
    if l.raises.contains name then
      match logMessage name args with
      | .error e => ([l.id], some e)
      | .ok _ =>
        let r := notify_listeners name args rest
        (l.id :: r.1, r.2)
    else
      let r := notify_listeners name args rest
      (l.id :: r.1, r.2)
  else notify_listeners name args rest

/-- The ids of the listeners that have a handler for `name`, in
registration order: exactly the handlers a fault-isolating fan-out must
invoke once each. -/
def invokedIds (ls : List Listener) (name : String) : List Nat :=
  (ls.filter (fun l => l.handles.contains name)).map (fun l => l.id)

/-- Python `file.readline` on the remaining characters: the consumed
prefix up to and including the first newline (or all remaining characters
when no newline is left), paired with the rest. An empty first component
is the end-of-file read. -/
def splitLine : List Char → List Char × List Char
| [] => ([], [])
| c :: rest =>
  if c = '\n' then ([c], rest)
  else
    let p := splitLine rest
    (c :: p.1, p.2)

/-- Helper for `linesOf`: accumulates the current line while scanning. -/
def linesCore : List Char → List Char → List String
| acc, [] => [String.mk acc]
| acc, c :: rest =>
  if c = '\n' then
    if rest.isEmpty then [String.mk (acc ++ [c])]
    else String.mk (acc ++ [c]) :: linesCore [] rest
  else linesCore (acc ++ [c]) rest

/-- The file's lines with their newline terminators kept: what repeated
`readline` calls yield before the empty end-of-file read. This is the
specification-side notion of "the file's lines in file order". -/
def linesOf : List Char → List String
| [] => []
| c :: rest => linesCore [] (c :: rest)

/-- An open text-file handle: the number of characters already consumed
(the offset `tell` reports; the content model is one byte per character)
and the remaining, unread characters. -/
structure Handle where
  consumed : Nat
  rest : List Char
deriving DecidableEq

/-- Lines 89-98 state of `LocalFilePrintjob` plus the base
`Printjob.__init__` state the claims touch: `content` stands for the file
system entry at `path` (the encoding plays no part at the character
level); `size` is the byte count captured at construction from
`os.stat`; `start` is the base class `_start` timestamp; `handle` is
`None` until `process` opens the file; `listeners` is the base class
listener list. -/
structure LocalFilePrintjob where
  path : String
  content : List Char
  size : Nat
  start : Option Rat
  handle : Option Handle
  listeners : List Listener
deriving DecidableEq

namespace LocalFilePrintjob

/-- Lines 91-98, `LocalFilePrintjob.__init__`: capture the path and the
stat size; no handle is open and no start time is recorded. -/
def mk0 (path : String) (content : List Char) (ls : List Listener) :
    LocalFilePrintjob :=
  { path := path, content := content, size := content.length,
    start := none, handle := none, listeners := ls }

/-- Lines 100-107 (with base lines 32-34): record the start time, open the
backing file, and when `position > 0` seek to that offset. `bom_aware_open`
lives in `octoprint.util`, outside the embedded sources. Modelled from the
spec: it opens the backing file for reading with the declared encoding,
replacing undecodable bytes, so the fresh handle reads the file's
characters from the requested offset (seeking to `position` leaves `tell`
at `position`). The borrowed protocol reference plays no further part in
the local job's claims and is not recorded. -/
def process (j : LocalFilePrintjob) (now : Rat) (position : Nat) :
    LocalFilePrintjob :=
  { j with start := some now,
           handle := some { consumed := position,
                            rest := j.content.drop position } }

/-- Lines 141-147: idempotent close; errors from the underlying close are
swallowed and the handle reference is reset. -/
def close (j : LocalFilePrintjob) : LocalFilePrintjob :=
  { j with handle := none }

/-- Lines 133-134: the base local job's line transform is the identity. -/
def process_line (line : String) : String :=
  line

/-- CPython percent-formatting, reduced to the arity check that decides
the embedded call: `template % arg` with `specs` percent-conversion
specifiers in the template and the given argument list (a non-tuple right
operand counts as a single argument). When the counts differ CPython
raises `TypeError` (not all arguments converted during string
formatting); with zero specifiers the template is returned unchanged. -/
def percentFormat (specs : Nat) (args : List String) (template : String) :
    Except PyError String :=
  if args.length = specs then .ok template else .error .typeError

/-- Lines 112-113:
`raise ValueError("File ... is not open for reading" % self._path)`. The
message template is a brace-style format string containing zero percent
conversion specifiers, yet it is combined with the `%` operator and one
argument, so evaluating the message raises `TypeError` before any
`ValueError` is constructed; that `TypeError` is what reaches the
caller. -/
def raiseClosedHandle (path : String) : PyError :=
  match percentFormat 0 [path] "File \x7b\x7d is not open for reading" with
  | .error e => e
  | .ok msg => .valueError msg

/-- Lines 109-131, `LocalFilePrintjob.get_next`. With no open handle the
guard raises (see `raiseClosedHandle`). Otherwise one line is read
(`to_unicode` from `octoprint.util` is the identity on the character-level
file model); `process_line` is the identity and always returns a string,
never `None`, so the `while processed is None` loop body runs exactly once
and the `handle is None` re-check at the top of a second iteration is
unreachable. An empty read (`if not line`, modelled as the read prefix
being `[]`) means end of file: the job notifies `on_job_done` on its
listeners and closes the handle, and the processed empty string is
returned; when the dispatch itself raises (see `notify_listeners`), the
`except` block closes the handle, logs a plain message, and re-raises.
Returns the new job state, this call's dispatch outcome (invoked listener
ids and escaping exception), and the call's result. -/
def get_next (j : LocalFilePrintjob) :
    LocalFilePrintjob × (List Nat × Option PyError) ×
      Except PyError (Option String) :=
  match j.handle with
  | none => (j, ([], none), .error (raiseClosedHandle j.path))
  | some h =>
    let p := splitLine h.rest
    let j1 := { j with handle := some { consumed := h.consumed + p.1.length,
                                        rest := p.2 } }
    if p.1 = [] then
      let notif := notify_listeners "on_job_done" [PyVal.obj] j1.listeners
      let j2 := close j1
      match notif.2 with
      | some e => (j2, notif, .error e)
      | none => (j2, notif, .ok (some (process_line (String.mk p.1))))
    else
      (j1, ([], none), .ok (some (process_line (String.mk p.1))))

/-- Lines 136-139: `0.0` while no handle is open, else `tell() / size`.
Both operands are Python 2 integers, so `/` is floor division, and a zero
`size` would raise `ZeroDivisionError`. -/
def get_progress (j : LocalFilePrintjob) : Except PyError Rat :=
  match j.handle with
  | none => .ok 0
  | some h =>
    if j.size = 0 then .error .zeroDivisionError
    else .ok ((h.consumed / j.size : Nat) : Rat)

/-- Lines 149-150. -/
def can_get_content : Bool :=
  true

/-- Lines 152-156, `get_content_generator`: a fresh handle over the same
file (`bom_aware_open` modelled from the spec as in `process`; note the
call misspells the `errors` keyword as `error`), then
`for line in f.readline(): yield line`. `f.readline()` is the file's
first line - a string - and iterating over a string yields its
one-character substrings, so the generator produces the characters of the
first line, not the file's lines. The fresh handle is independent of the
job state, which is neither read (beyond path and encoding) nor
mutated. -/
def get_content_generator (content : List Char) : List String :=
  (splitLine content).1.map (fun c => String.mk [c])

/-- Iterate `get_next` `n` times from a job state, collecting every call's
dispatch outcome and result, together with the final job state. -/
def runGetNext : Nat → LocalFilePrintjob →
    List ((List Nat × Option PyError) × Except PyError (Option String)) ×
      LocalFilePrintjob
| 0, j => ([], j)
| n + 1, j =>
  let s := get_next j
  let r := runGetNext n s.1
  ((s.2.1, s.2.2) :: r.1, r.2)

end LocalFilePrintjob

namespace Printjob

/-- Lines 42-51, `Printjob.get_time_estimate`, over the quantities the
method reads: the wall clock `now` (`time.time()`), the recorded `_start`
(`none` while unset), the `lost_time` argument, and the value returned by
the job's `get_progress` override (`none` standing for Python `None`).
`if not progress` holds for `None` and for a zero number alike;
`spent_time` is a float, so the final division is true division even in
Python 2. -/
def get_time_estimate (now : Rat) (start : Option Rat)
    (progress : Option Rat) (lost_time : Rat) : Option Rat :=
  match start with
  | none => none
  | some s =>
    match progress with
    | none => none
    | some p => if p = 0 then none else some ((now - s - lost_time) / p)

/-- Lines 36-37: the base `cancel` does nothing - no state change, no
dispatch. -/
def cancel {α : Type} (j : α) : α × (List Nat × Option PyError) :=
  (j, ([], none))

end Printjob

/-- Lines 185-196 state of `SDFilePrintjob` plus the base state: the
device-side filename and polling interval from construction; whether the
repeating status timer has been started; the `_active` flag; the size and
last position reported by protocol callbacks (`None` until the first
callback); the base `_start` timestamp; whether the job is currently
registered as a listener on its protocol; and the job's own listeners.
Modelled from the spec: the protocol's `register_listener` /
`unregister_listener` (octoprint.comm.protocol, outside the embedded
sources) toggle the job's membership in the protocol's listener set, here
the flag `registeredOnProtocol`; `RepeatedTimer` (octoprint.util) fires
every `statusInterval` seconds for as long as its driving condition,
re-evaluated each tick, stays true. -/
structure SDFilePrintjob where
  filename : String
  statusInterval : Rat
  statusTimerStarted : Bool
  active : Bool
  size : Option Int
  lastPos : Option Int
  start : Option Rat
  registeredOnProtocol : Bool
  listeners : List Listener
deriving DecidableEq

namespace SDFilePrintjob

/-- Lines 187-196, `SDFilePrintjob.__init__`. -/
def mk0 (filename : String) (interval : Rat) (ls : List Listener) :
    SDFilePrintjob :=
  { filename := filename, statusInterval := interval,
    statusTimerStarted := false, active := false,
    size := none, lastPos := none, start := none,
    registeredOnProtocol := false, listeners := ls }

/-- Lines 202-212 (with base lines 32-34): record the start time, register
on the protocol, instruct it to start the device print (an outward command
with no job-state effect), flip `active`, record the starting position,
and start the repeating status timer whose condition is
`_query_active`. -/
def process (j : SDFilePrintjob) (now : Rat) (position : Int) :
    SDFilePrintjob :=
  { j with start := some now, registeredOnProtocol := true,
           active := true, lastPos := some position,
           statusTimerStarted := true }

/-- Lines 214-217: `None` while the size or the last position is unknown,
else `last_pos / size` - Python 2 integer floor division, unguarded
against a zero size, which raises `ZeroDivisionError`. -/
def get_progress (j : SDFilePrintjob) : Except PyError (Option Rat) :=
  match j.size, j.lastPos with
  | none, _ => .ok none
  | some _, none => .ok none
  | some s, some p =>
    if s = 0 then .error .zeroDivisionError
    else .ok (some ((Int.fdiv p s : Int) : Rat))

/-- Lines 222-225: a status callback for another file is ignored; a
matching one records the reported position (the reported total is
unused). -/
def on_protocol_sd_status (j : SDFilePrintjob) (name : String)
    (pos total : Int) : SDFilePrintjob :=
  if name ≠ j.filename then j else { j with lastPos := some pos }

/-- Lines 227-230: a print-started callback for another file is ignored; a
matching one records the reported size. -/
def on_protocol_file_print_started (j : SDFilePrintjob) (name : String)
    (size : Int) : SDFilePrintjob :=
  if name ≠ j.filename then j else { j with size := some size }

/-- Lines 232-235: unconditionally clear `active`, unregister from the
protocol, and notify the job's own listeners of `on_job_done`. Returns
the new state and the dispatch outcome. -/
def on_protocol_file_print_done (j : SDFilePrintjob) :
    SDFilePrintjob × (List Nat × Option PyError) :=
  ({ j with active := false, registeredOnProtocol := false },
   notify_listeners "on_job_done" [PyVal.obj] j.listeners)

/-- Lines 240-241: the repeating status timer's driving condition. -/
def query_active (j : SDFilePrintjob) : Bool :=
  j.active

/-- `SDFilePrintjob` does not override `cancel`: it inherits the base
no-op of lines 36-37. -/
def cancel (j : SDFilePrintjob) : SDFilePrintjob × (List Nat × Option PyError) :=
  Printjob.cancel j

end SDFilePrintjob

/-! ## Helper lemmas (shared across claims) -/

theorem notify_listeners_no_raise (name : String) (args : List PyVal) :
    ∀ ls : List Listener, (∀ l ∈ ls, l.raises.contains name = false) →
    notify_listeners name args ls = (invokedIds ls name, none) := by
  intro ls
  induction ls with
  | nil => intro _; simp [notify_listeners, invokedIds]
  | cons l rest ih =>
    intro h
    have hr : name ∉ l.raises := by
      have hb := h l (List.mem_cons_self l rest)
      simpa using hb
    have hrest : ∀ x ∈ rest, x.raises.contains name = false :=
      fun x hx => h x (List.mem_cons_of_mem l hx)
    by_cases hc : name ∈ l.handles
    · simp [notify_listeners, hc, hr, invokedIds, List.filter_cons, ih hrest]
    · simp [notify_listeners, hc, invokedIds, List.filter_cons, ih hrest]

theorem splitLine_fst_ne_nil (c : Char) (rest : List Char) :
    (splitLine (c :: rest)).1 ≠ [] := by
  by_cases hc : c = '\n' <;> simp [splitLine, hc]

theorem splitLine_snd_length (cs : List Char) :
    (splitLine cs).2.length ≤ cs.length := by
  induction cs with
  | nil => simp [splitLine]
  | cons c rest ih =>
    by_cases hc : c = '\n' <;> simp [splitLine, hc] <;> omega

theorem splitLine_cons_snd_length (c : Char) (rest : List Char) :
    (splitLine (c :: rest)).2.length ≤ rest.length := by
  by_cases hc : c = '\n' <;> simp [splitLine, hc]
  exact splitLine_snd_length rest

theorem linesCore_eq (cs : List Char) : ∀ acc : List Char,
    linesCore acc cs =
      String.mk (acc ++ (splitLine cs).1) :: linesOf (splitLine cs).2 := by
  induction cs with
  | nil => intro acc; simp [linesCore, splitLine, linesOf]
  | cons c rest ih =>
    intro acc
    by_cases hc : c = '\n'
    · subst hc
      cases rest with
      | nil => simp [linesCore, splitLine, linesOf]
      | cons r1 r2 => simp [linesCore, splitLine, linesOf]
    · simp [linesCore, hc, ih (acc ++ [c]), splitLine]

theorem linesOf_cons (c : Char) (rest : List Char) :
    linesOf (c :: rest) =
      String.mk (splitLine (c :: rest)).1 :: linesOf (splitLine (c :: rest)).2 := by
  have hdef : linesOf (c :: rest) = linesCore [] (c :: rest) := rfl
  rw [hdef, linesCore_eq (c :: rest) []]
  simp

theorem runGetNext_succ (n : Nat) (j : LocalFilePrintjob) :
    LocalFilePrintjob.runGetNext (n + 1) j =
      (((LocalFilePrintjob.get_next j).2.1, (LocalFilePrintjob.get_next j).2.2) ::
        (LocalFilePrintjob.runGetNext n (LocalFilePrintjob.get_next j).1).1,
       (LocalFilePrintjob.runGetNext n (LocalFilePrintjob.get_next j).1).2) := rfl

theorem runGetNext_closed (j : LocalFilePrintjob) (hj : j.handle = none) :
    LocalFilePrintjob.runGetNext 1 j =
      ([(([], none), Except.error (LocalFilePrintjob.raiseClosedHandle j.path))], j) := by
  simp [LocalFilePrintjob.runGetNext, LocalFilePrintjob.get_next, hj]

theorem runGetNext_eof (j : LocalFilePrintjob) (c0 : Nat)
    (hnr : ∀ l ∈ j.listeners, l.raises.contains "on_job_done" = false)
    (hj : j.handle = some { consumed := c0, rest := [] }) :
    LocalFilePrintjob.runGetNext 2 j =
      ([((invokedIds j.listeners "on_job_done", none), Except.ok (some "")),
        (([], none), Except.error (LocalFilePrintjob.raiseClosedHandle j.path))],
       { j with handle := none }) := by
  have hdisp := notify_listeners_no_raise "on_job_done" [PyVal.obj] j.listeners hnr
  simp [LocalFilePrintjob.runGetNext, LocalFilePrintjob.get_next, hj, splitLine,
        LocalFilePrintjob.close, LocalFilePrintjob.process_line, hdisp]

theorem runGetNext_stream : ∀ (n : Nat) (cs : List Char), cs.length ≤ n →
    ∀ (j : LocalFilePrintjob) (c0 : Nat),
    (∀ l ∈ j.listeners, l.raises.contains "on_job_done" = false) →
    j.handle = some { consumed := c0, rest := cs } →
    LocalFilePrintjob.runGetNext ((linesOf cs).length + 2) j =
      ((linesOf cs).map (fun ln => (([], none), Except.ok (some ln)))
        ++ ((invokedIds j.listeners "on_job_done", none), Except.ok (some "")) ::
          [(([], none), Except.error (LocalFilePrintjob.raiseClosedHandle j.path))],
       { j with handle := none }) := by
  intro n
  induction n with
  | zero =>
    intro cs hlen j c0 hnr hj
    have hcs : cs = [] := List.length_eq_zero.mp (Nat.le_zero.mp hlen)
    subst hcs
    simpa [linesOf] using runGetNext_eof j c0 hnr hj
  | succ n ih =>
    intro cs hlen j c0 hnr hj
    cases cs with
    | nil => simpa [linesOf] using runGetNext_eof j c0 hnr hj
    | cons c rest =>
      rcases hp : splitLine (c :: rest) with ⟨l, r⟩
      have hne : l ≠ [] := by
        have h0 := splitLine_fst_ne_nil c rest
        rw [hp] at h0
        exact h0
      have hlen2 : r.length ≤ n := by
        have h0 := splitLine_cons_snd_length c rest
        rw [hp] at h0
        exact le_trans h0 (Nat.le_of_succ_le_succ hlen)
      have hstep : LocalFilePrintjob.get_next j =
          ({ j with handle := some ⟨c0 + l.length, r⟩ }, ([], none),
            Except.ok (some (String.mk l))) := by
        simp [LocalFilePrintjob.get_next, hj, hp, hne,
              LocalFilePrintjob.process_line]
      have ihres := ih r hlen2 { j with handle := some ⟨c0 + l.length, r⟩ }
        (c0 + l.length) hnr rfl
      rw [linesOf_cons, hp]
      have hcount : (String.mk l :: linesOf r).length + 2 =
          ((linesOf r).length + 2) + 1 := by
        rw [List.length_cons]
      rw [hcount, runGetNext_succ]
      simp only [hstep]
      simp [ihres]

/-! ## Claim theorems -/

/-- Claim C1 (evaluation at the failing input): a listener whose handler
raises does NOT have its exception confined to the dispatch boundary. With
a raising first listener and a well-behaved second listener, the `except`
block's own log-message expression raises (the `", ".join` receives the
non-string job object), so `notify_listeners` invokes only the first
listener and lets a `TypeError` escape - the second listener is never
notified. The second conjunct shows the same failure for `on_job_failed`,
the one event dispatched with no positional arguments: there the join
succeeds but the outer format template has two replacement fields and one
argument, raising `IndexError`. In both cases an exception propagates out
of `notify_listeners` into the job's control flow, contrary to the
claim. -/
theorem claim_C1_listener_exception_escapes_dispatch :
    notify_listeners "on_job_started" [PyVal.obj]
      [⟨1, ["on_job_started"], ["on_job_started"]⟩,
       ⟨2, ["on_job_started"], []⟩]
      = ([1], some PyError.typeError) ∧
    notify_listeners "on_job_failed" []
      [⟨1, ["on_job_failed"], ["on_job_failed"]⟩,
       ⟨2, ["on_job_failed"], []⟩]
      = ([1], some PyError.indexError) := by
  decide

/-- Claim C3 (evaluation at the failing input): for a 100-byte file,
immediately after `process(protocol, position=50)` the progress is the
Python 2 floor quotient `50 / 100 = 0`, not the fractional `0.5` the
claim states; the `0.0`-while-not-open part of the claim does hold. -/
theorem claim_C3_floor_division_progress :
    LocalFilePrintjob.get_progress
        (LocalFilePrintjob.mk0 "f.gcode" (List.replicate 100 'a') []) =
      Except.ok 0 ∧
    LocalFilePrintjob.get_progress
        (LocalFilePrintjob.process
          (LocalFilePrintjob.mk0 "f.gcode" (List.replicate 100 'a') []) 5 50) =
      Except.ok 0 ∧
    (Except.ok (0 : Rat) : Except PyError Rat) ≠ Except.ok (1 / 2 : Rat) := by
  refine ⟨by decide, by decide, ?_⟩
  intro h
  have h0 : (0 : Rat) = 1 / 2 := by
    injection h
  norm_num at h0

/-- Claim C4: `get_time_estimate` returns `None` exactly when the job has
not been started or the progress value is unavailable (`None`) or zero,
and otherwise returns exactly `(now - start - lost_time) / progress`. -/
theorem claim_C4_time_estimate (now : Rat) (start : Option Rat)
    (progress : Option Rat) (lost : Rat) :
    ((start = none ∨ progress = none ∨ progress = some 0) →
      Printjob.get_time_estimate now start progress lost = none) ∧
    (∀ s p, start = some s → progress = some p → p ≠ 0 →
      Printjob.get_time_estimate now start progress lost =
        some ((now - s - lost) / p)) := by
  constructor
  · rintro (rfl | rfl | rfl)
    · simp [Printjob.get_time_estimate]
    · cases start <;> simp [Printjob.get_time_estimate]
    · cases start <;> simp [Printjob.get_time_estimate]
  · rintro s p rfl rfl hp
    simp [Printjob.get_time_estimate, hp]

/-- Claim C4 witness: concrete instances of every branch - a started job
at half progress after 8 time units extrapolates to 16 total, and the
unset-start and zero-progress cases return `None`. -/
theorem claim_C4_time_estimate_witness :
    Printjob.get_time_estimate 10 (some 2) (some (1 / 2)) 0 = some 16 ∧
    Printjob.get_time_estimate 10 none (some (1 / 2)) 0 = none ∧
    Printjob.get_time_estimate 10 (some 2) (some 0) 0 = none := by
  refine ⟨?_, ?_, ?_⟩
  · have h := (claim_C4_time_estimate 10 (some 2) (some (1 / 2)) 0).2
      2 (1 / 2) rfl rfl (by norm_num)
    rw [h]
    norm_num
  · exact (claim_C4_time_estimate 10 none (some (1 / 2)) 0).1 (Or.inl rfl)
  · exact (claim_C4_time_estimate 10 (some 2) (some 0) 0).1
      (Or.inr (Or.inr rfl))

/-- Claim C5: an SD status callback for a different filename leaves the
whole job state unchanged, and one for the matching filename changes
exactly `lastPos`, to the reported position. -/
theorem claim_C5_sd_status_frame (j : SDFilePrintjob) (name : String)
    (pos total : Int) :
    (name ≠ j.filename →
      SDFilePrintjob.on_protocol_sd_status j name pos total = j) ∧
    (name = j.filename →
      SDFilePrintjob.on_protocol_sd_status j name pos total =
        { j with lastPos := some pos }) := by
  constructor
  · intro h
    simp [SDFilePrintjob.on_protocol_sd_status, h]
  · intro h
    simp [SDFilePrintjob.on_protocol_sd_status, h]

/-- Claim C5 witness: a concrete job named `f.gco`; a status callback for
`other.gco` changes nothing, one for `f.gco` sets `lastPos` to 5. -/
theorem claim_C5_sd_status_frame_witness :
    SDFilePrintjob.on_protocol_sd_status
        (SDFilePrintjob.mk0 "f.gco" 2 []) "other.gco" 5 10 =
      SDFilePrintjob.mk0 "f.gco" 2 [] ∧
    SDFilePrintjob.on_protocol_sd_status
        (SDFilePrintjob.mk0 "f.gco" 2 []) "f.gco" 5 10 =
      { SDFilePrintjob.mk0 "f.gco" 2 [] with lastPos := some 5 } := by
  exact ⟨(claim_C5_sd_status_frame (SDFilePrintjob.mk0 "f.gco" 2 [])
            "other.gco" 5 10).1 (by decide),
         (claim_C5_sd_status_frame (SDFilePrintjob.mk0 "f.gco" 2 [])
            "f.gco" 5 10).2 rfl⟩

/-- Claim C6: a `file-print-done` callback - with no filename parameter to
check - clears `active`, unregisters the job from the protocol, and
dispatches `on_job_done` to the job's listeners, each listener with a
handler being invoked exactly once (listeners are assumed well-behaved
under this event and to carry distinct ids: fault injection into the
dispatcher is the subject of claim C1). -/
theorem claim_C6_file_print_done (j : SDFilePrintjob)
    (hnr : ∀ l ∈ j.listeners, l.raises.contains "on_job_done" = false)
    (hids : (j.listeners.map (fun l => l.id)).Nodup) :
    (SDFilePrintjob.on_protocol_file_print_done j).1.active = false ∧
    (SDFilePrintjob.on_protocol_file_print_done j).1.registeredOnProtocol = false ∧
    (SDFilePrintjob.on_protocol_file_print_done j).2 =
      (invokedIds j.listeners "on_job_done", none) ∧
    ∀ l ∈ j.listeners, l.handles.contains "on_job_done" = true →
      (invokedIds j.listeners "on_job_done").count l.id = 1 := by
  refine ⟨rfl, rfl, ?_, ?_⟩
  · simp [SDFilePrintjob.on_protocol_file_print_done,
          notify_listeners_no_raise "on_job_done" [PyVal.obj] j.listeners hnr]
  · intro l hl hh
    have hsub : List.Sublist
        ((j.listeners.filter
          (fun x => x.handles.contains "on_job_done")).map (fun x => x.id))
        (j.listeners.map (fun x => x.id)) :=
      ((List.filter_sublist j.listeners).map (fun x => x.id))
    have hnodup : (invokedIds j.listeners "on_job_done").Nodup :=
      hids.sublist hsub
    have hmem : l.id ∈ invokedIds j.listeners "on_job_done" := by
      refine List.mem_map.mpr ⟨l, ?_, rfl⟩
      exact List.mem_filter.mpr ⟨hl, by simpa using hh⟩
    exact List.count_eq_one_of_mem hnodup hmem

/-- Claim C6 witness: a concrete job with listener 1 handling
`on_job_done` and listener 2 not handling it - after the callback the job
is inactive and unregistered, and listener 1 was invoked exactly once. -/
theorem claim_C6_file_print_done_witness :
    (SDFilePrintjob.on_protocol_file_print_done
        (SDFilePrintjob.mk0 "f.gco" 2
          [⟨1, ["on_job_done"], []⟩, ⟨2, [], []⟩])).1.active = false ∧
    (SDFilePrintjob.on_protocol_file_print_done
        (SDFilePrintjob.mk0 "f.gco" 2
          [⟨1, ["on_job_done"], []⟩, ⟨2, [], []⟩])).1.registeredOnProtocol
      = false ∧
    (invokedIds [⟨1, ["on_job_done"], []⟩, ⟨2, [], []⟩]
        "on_job_done").count 1 = 1 := by
  have h := claim_C6_file_print_done
    (SDFilePrintjob.mk0 "f.gco" 2 [⟨1, ["on_job_done"], []⟩, ⟨2, [], []⟩])
    (by decide) (by decide)
  exact ⟨h.1, h.2.1, h.2.2.2 ⟨1, ["on_job_done"], []⟩ (by decide) (by decide)⟩

/-- Claim C7 (evaluation at the failing input): `cancel` on a processing
SD job is the inherited base no-op - the job state is untouched, `active`
stays true so the repeating timer's driving condition `_query_active`
still holds (the timer keeps issuing status queries), the job stays
registered on the protocol, and no `on_job_cancelled` dispatch occurs,
contrary to the claim. -/
theorem claim_C7_cancel_noop :
    SDFilePrintjob.cancel
        (SDFilePrintjob.process (SDFilePrintjob.mk0 "f.gco" 2 []) 100 0) =
      (SDFilePrintjob.process (SDFilePrintjob.mk0 "f.gco" 2 []) 100 0,
       ([], none)) ∧
    (SDFilePrintjob.cancel
        (SDFilePrintjob.process
          (SDFilePrintjob.mk0 "f.gco" 2 []) 100 0)).1.active = true ∧
    SDFilePrintjob.query_active
        (SDFilePrintjob.cancel
          (SDFilePrintjob.process
            (SDFilePrintjob.mk0 "f.gco" 2 []) 100 0)).1 = true ∧
    (SDFilePrintjob.cancel
        (SDFilePrintjob.process
          (SDFilePrintjob.mk0 "f.gco" 2 []) 100 0)).1.registeredOnProtocol
      = true ∧
    (SDFilePrintjob.cancel
        (SDFilePrintjob.process
          (SDFilePrintjob.mk0 "f.gco" 2 []) 100 0)).1.statusTimerStarted
      = true := by
  decide

/-- Claim C8 (evaluation at the failing input): `get_next` on a job whose
handle is not open does raise to the caller rather than return a value -
but the exception is a `TypeError`, not the intended `ValueError` naming
the file, because the message expression
`"File ... is not open for reading" % self._path` applies `%` to a
template with zero percent conversion specifiers (see
`LocalFilePrintjob.raiseClosedHandle`). -/
theorem claim_C8_closed_handle_raises :
    (LocalFilePrintjob.get_next
        (LocalFilePrintjob.mk0 "f.gcode" ['G', '1'] [])).2.2 =
      Except.error PyError.typeError ∧
    ∀ msg, PyError.typeError ≠ PyError.valueError msg := by
  refine ⟨by decide, ?_⟩
  intro msg h
  exact PyError.noConfusion h

/-- Claim C9 (evaluation at the failing input): `can_get_content` is true
and `get_content_generator` opens an independent fresh view, but on the
file `ab\ncd\n` it yields the one-character strings `a`, `b`, newline -
the characters of `f.readline()`, the first line - and not the file's
lines `ab\n`, `cd\n`, contrary to the claim. -/
theorem claim_C9_content_generator_chars :
    LocalFilePrintjob.can_get_content = true ∧
    LocalFilePrintjob.get_content_generator ['a', 'b', '\n', 'c', 'd', '\n'] =
      ["a", "b", "\n"] ∧
    linesOf ['a', 'b', '\n', 'c', 'd', '\n'] = ["ab\n", "cd\n"] ∧
    LocalFilePrintjob.get_content_generator ['a', 'b', '\n', 'c', 'd', '\n'] ≠
      linesOf ['a', 'b', '\n', 'c', 'd', '\n'] := by
  decide

/-- Claim C10: after `process` (which sets `lastPos`) and a matching
`file-print-started` callback reporting size 0, `get_progress` hits the
unguarded `last_pos / size` division and raises `ZeroDivisionError`
instead of returning the undefined-progress sentinel `None`. -/
theorem claim_C10_zero_size_division (j : SDFilePrintjob) (now : Rat)
    (pos : Int) :
    SDFilePrintjob.get_progress
        (SDFilePrintjob.on_protocol_file_print_started
          (SDFilePrintjob.process j now pos)
          (SDFilePrintjob.process j now pos).filename 0) =
      Except.error PyError.zeroDivisionError ∧
    SDFilePrintjob.get_progress
        (SDFilePrintjob.on_protocol_file_print_started
          (SDFilePrintjob.process j now pos)
          (SDFilePrintjob.process j now pos).filename 0) ≠
      Except.ok none := by
  constructor
  · simp [SDFilePrintjob.process, SDFilePrintjob.on_protocol_file_print_started,
          SDFilePrintjob.get_progress]
  · simp [SDFilePrintjob.process, SDFilePrintjob.on_protocol_file_print_started,
          SDFilePrintjob.get_progress]

/-- Claim C2 counterexample: on a one-line local file, the `get_next` call
that reads end-of-file returns the processed empty string - not `None` as
the claim states - and the following call raises rather than returning
`None`. -/
theorem claim_C2_counterexample :
    (LocalFilePrintjob.runGetNext 3
        (LocalFilePrintjob.process
          (LocalFilePrintjob.mk0 "a.gcode" ['X', '\n'] []) 0 0)).1 =
      [(([], none), Except.ok (some "X\n")),
       (([], none), Except.ok (some "")),
       (([], none), Except.error PyError.typeError)] ∧
    (Except.ok (some "") : Except PyError (Option String)) ≠ Except.ok none ∧
    (Except.error PyError.typeError : Except PyError (Option String)) ≠
      Except.ok none := by
  decide

/-- Claim C2 (amended): for a local file job opened from position 0 with
well-behaved listeners, repeated `get_next` calls yield the file's lines
in file order; the call that reads end-of-file dispatches `on_job_done`
to every handling listener, closes the handle, and returns the processed
empty string (a falsy no-content value, not `None`); and every call on the
now-closed handle raises (the closed-handle guard, whose own message
expression turns the intended `ValueError` into a `TypeError`) instead of
returning `None`. -/
theorem claim_C2_amended_stream_behavior (content : List Char)
    (ls : List Listener) (now : Rat) (path : String)
    (hnr : ∀ l ∈ ls, l.raises.contains "on_job_done" = false) :
    LocalFilePrintjob.runGetNext ((linesOf content).length + 2)
        (LocalFilePrintjob.process
          (LocalFilePrintjob.mk0 path content ls) now 0) =
      ((linesOf content).map (fun ln => (([], none), Except.ok (some ln)))
        ++ ((invokedIds ls "on_job_done", none), Except.ok (some "")) ::
          [(([], none),
            Except.error (LocalFilePrintjob.raiseClosedHandle path))],
       { path := path, content := content, size := content.length,
         start := some now, handle := none, listeners := ls }) ∧
    (∀ jc : LocalFilePrintjob, jc.handle = none →
      LocalFilePrintjob.get_next jc =
        (jc, ([], none),
         Except.error (LocalFilePrintjob.raiseClosedHandle jc.path))) := by
  constructor
  · have hj : (LocalFilePrintjob.process
        (LocalFilePrintjob.mk0 path content ls) now 0).handle =
        some ⟨0, content⟩ := by
      simp [LocalFilePrintjob.mk0, LocalFilePrintjob.process]
    have h := runGetNext_stream content.length content le_rfl
      (LocalFilePrintjob.process
        (LocalFilePrintjob.mk0 path content ls) now 0) 0 hnr hj
    simpa [LocalFilePrintjob.mk0, LocalFilePrintjob.process] using h
  · intro jc hjc
    simp [LocalFilePrintjob.get_next, hjc]

/-- Claim C2 witness: the amended statement evaluated on the one-line
file `X` with one listener handling `on_job_done`: the first call yields
the line, the end-of-file call invokes listener 7 and returns the empty
string, the third call raises `TypeError`, and the final state is closed
with all identity fields intact. -/
theorem claim_C2_amended_witness :
    LocalFilePrintjob.runGetNext 3
        (LocalFilePrintjob.process
          (LocalFilePrintjob.mk0 "w.gcode" ['X', '\n']
            [⟨7, ["on_job_done"], []⟩]) 0 0) =
      ([(([], none), Except.ok (some "X\n")),
        (([7], none), Except.ok (some "")),
        (([], none), Except.error PyError.typeError)],
       { path := "w.gcode", content := ['X', '\n'], size := 2,
         start := some 0, handle := none,
         listeners := [⟨7, ["on_job_done"], []⟩] }) := by
  have h := (claim_C2_amended_stream_behavior ['X', '\n']
    [⟨7, ["on_job_done"], []⟩] 0 "w.gcode" (by decide)).1
  exact h.trans (by decide)
